import Mathlib

/-!
Verification development for the qualia cognitive state machine
(`states.go`, `main.go`).

The Go code is shallowly embedded: each mode handler
(`IdleState.HandleInput`, `ThinkingState.HandleInput`,
`ReflectingState.HandleInput`, `ActingState.HandleInput`) becomes a pure Lean
function from the old `MindContext` (plus the already-tokenized command and
the values drawn from the random source) to the new state, the updated
`MindContext` and the list of returned event strings.  Go `int` fields are
modelled as `Int`, `float64` fields as `ℚ` (the only float operations the
program performs on them are additions of decimal literals, comparisons and
clamping, all exact), and `rand.Intn` / `rand.Float64` draws are passed in
explicitly.  Console `fmt.Print` output is not part of the returned data and
is not modelled; the returned event lists are modelled verbatim (numeric
formatting of `%d`/`%f` verbs is rendered with `toString`/`fmtQ`).
-/

/-- Rendering of a rational in an event string (stands for the `%.1f`/`%.2f`
formatting verbs of the source; the exact digits are irrelevant to every
property proved below). -/
def fmtQ (q : ℚ) : String :=
  toString q.num ++ "/" ++ toString q.den

/-- Auxiliary scan for `containsStr`. -/
def substrAux (pat : List Char) : List Char → Bool
  | [] => pat.isEmpty
  | c :: cs => pat.isPrefixOf (c :: cs) || substrAux pat cs

/-- Substring test used to state properties about event contents. -/
def containsStr (s pat : String) : Bool :=
  substrAux pat.toList s.toList

/-- Model of Go `strconv.Atoi` restricted to its success/failure behavior on
the inputs the program can see: an optional sign followed by at least one
decimal digit parses to the signed value, anything else fails. -/
def parseNatAux : List Char → Nat → Option Nat
  | [], acc => some acc
  | c :: cs, acc =>
    if c.isDigit then parseNatAux cs (acc * 10 + (c.toNat - 48)) else none

/-- `strconv.Atoi` from the Go standard library (overflow behavior on values
beyond 64 bits is not modelled; the program only ever parses thought
indices). -/
def atoi (s : String) : Option Int :=
  match s.toList with
  | [] => none
  | '-' :: cs =>
    match cs with
    | [] => none
    | _ => (parseNatAux cs 0).map (fun n => -(n : Int))
  | '+' :: cs =>
    match cs with
    | [] => none
    | _ => (parseNatAux cs 0).map (fun n => (n : Int))
  | cs => (parseNatAux cs 0).map (fun n => (n : Int))

/-- Model of Go `strings.Fields`: split around runs of whitespace.  `cur`
accumulates the current field in reverse. -/
def fieldsAux : List Char → List Char → List String
  | [], cur => if cur.isEmpty then [] else [⟨cur.reverse⟩]
  | c :: cs, cur =>
    if c.isWhitespace then
      if cur.isEmpty then fieldsAux cs [] else ⟨cur.reverse⟩ :: fieldsAux cs []
    else fieldsAux cs (c :: cur)

/-- `strings.Fields` from the Go standard library. -/
def fields (s : String) : List String :=
  fieldsAux s.toList []

/-- `MindContext` from states.go: the internal state of an entity. -/
structure MindContext where
  Thoughts : List String
  CurrentFocusIndex : Int
  Clarity : ℚ
  Energy : Int
  MaxEnergy : Int
  ExpressionThreshold : ℚ
deriving Repr, DecidableEq

/-- `NewMindContext` from states.go. -/
def NewMindContext : MindContext :=
  { Thoughts := []
    CurrentFocusIndex := -1
    Clarity := 0
    Energy := 70
    MaxEnergy := 100
    ExpressionThreshold := 7/10 }

/-- The four cognitive states implementing the Go `State` interface. -/
inductive State where
  | IdleState
  | ThinkingState
  | ReflectingState
  | ActingState
deriving Repr, DecidableEq

/-- `GetName` of each state. -/
def State.GetName : State → String
  | .IdleState => "Idle"
  | .ThinkingState => "Thinking"
  | .ReflectingState => "Reflecting"
  | .ActingState => "Acting"

/-- The `default:` branch event shared by all four handlers. -/
def unknownCommandEvent (entityID command modeName : String) : String :=
  entityID ++ " tried unknown command \x27" ++ command ++ "\x27 in " ++ modeName ++ "."

/-- `IdleState.HandleInput` from states.go.  `command` is `parts[0]`;
the Idle handler reads no further argument. -/
def IdleState.HandleInput (entityID : String) (ctx : MindContext) (command : String) :
    State × MindContext × List String :=
  if command = "think" then
    if ctx.Energy ≥ 5 then
      (.ThinkingState, { ctx with Energy := ctx.Energy - 5 },
        [entityID ++ " started thinking."])
    else
      (.IdleState, ctx, [entityID ++ " has not enough energy to start thinking."])
  else if command = "reflect" then
    if ctx.Energy ≥ 5 then
      (.ReflectingState, { ctx with Energy := ctx.Energy - 5 },
        [entityID ++ " started reflecting."])
    else
      (.IdleState, ctx, [entityID ++ " has not enough energy to start reflecting."])
  else if command = "act" then
    if ctx.Energy ≥ 5 then
      (.ActingState, { ctx with Energy := ctx.Energy - 5 },
        [entityID ++ " prepared to act."])
    else
      (.IdleState, ctx, [entityID ++ " has not enough energy to prepare to act."])
  else if command = "recharge" then
    let oldEnergy := ctx.Energy
    let newEnergy := if ctx.Energy + 25 > ctx.MaxEnergy then ctx.MaxEnergy else ctx.Energy + 25
    (.IdleState, { ctx with Energy := newEnergy },
      [entityID ++ " recharged. Energy " ++ toString oldEnergy ++ " -> " ++ toString newEnergy ++ "."])
  else
    (.IdleState, ctx, [unknownCommandEvent entityID command "Idle"])

/-- The fixed thought pool of `ThinkingState`. -/
def potentialThoughts : List String :=
  ["the nature of reality is elusive",
   "consciousness is a complex phenomenon",
   "embodiment shapes perception",
   "meaning is constructed, not inherent",
   "the internal world is vast",
   "externalization is a lossy process"]

/-- `ThinkingState.HandleInput` from states.go.  `args` is `parts[1:]`;
`genIdx` is the value drawn from `rand.Intn(len(potentialThoughts))`
(modelled modulo the pool size, matching the codomain of `rand.Intn`). -/
def ThinkingState.HandleInput (entityID : String) (ctx : MindContext) (command : String)
    (args : List String) (genIdx : Nat) : State × MindContext × List String :=
  if ctx.Energy < 10 ∧ command ≠ "idle" then
    (.ThinkingState, ctx, [entityID ++ " has low energy for thinking actions."])
  else if command = "generate" then
    if ctx.Energy ≥ 10 then
      let newThought := potentialThoughts.getD (genIdx % potentialThoughts.length) ""
      (.ThinkingState,
        { ctx with Energy := ctx.Energy - 10, Thoughts := ctx.Thoughts ++ [newThought] },
        [entityID ++ " generated thought: \x27" ++ newThought ++ "\x27."])
    else
      (.ThinkingState, ctx, [entityID ++ " failed to generate thought (low energy)."])
  else if command = "focus" then
    match args with
    | [] => (.ThinkingState, ctx, [entityID ++ " tried to focus without specifying index."])
    | a :: _ =>
      match atoi a with
      | none =>
        (.ThinkingState, ctx,
          [entityID ++ " tried to focus on invalid index \x27" ++ a ++ "\x27."])
      | some index =>
        if index < 0 ∨ index ≥ (ctx.Thoughts.length : Int) then
          (.ThinkingState, ctx,
            [entityID ++ " tried to focus on invalid index \x27" ++ a ++ "\x27."])
        else if ctx.Energy ≥ 5 then
          (.ThinkingState,
            { ctx with Energy := ctx.Energy - 5, CurrentFocusIndex := index, Clarity := 1/10 },
            [entityID ++ " focused on thought [" ++ toString index ++ "]: \x27" ++
              ctx.Thoughts.getD index.toNat "" ++ "\x27. Clarity reset to " ++ fmtQ (1/10) ++ "."])
        else
          (.ThinkingState, ctx, [entityID ++ " failed to focus (low energy)."])
  else if command = "idle" then
    (.IdleState, ctx, [entityID ++ " transitioned to Idle from Thinking."])
  else
    (.ThinkingState, ctx, [unknownCommandEvent entityID command "Thinking"])

/-- `ReflectingState.HandleInput` from states.go.  `jitter` is the value drawn
from `rand.Float64()` (a real in `[0,1)`). -/
def ReflectingState.HandleInput (entityID : String) (ctx : MindContext) (command : String)
    (jitter : ℚ) : State × MindContext × List String :=
  if ctx.Energy < 15 ∧ command = "introspect" then
    (.ReflectingState, ctx, [entityID ++ " has low energy for introspection."])
  else if command = "introspect" then
    if ctx.CurrentFocusIndex = -1 then
      (.ReflectingState, ctx, [entityID ++ " tried to introspect without focus."])
    else if ctx.Energy ≥ 15 then
      let raised := ctx.Clarity + (3/20 + jitter * (1/10))
      let newClarity := if raised > 1 then 1 else raised
      let focusedThought := ctx.Thoughts.getD ctx.CurrentFocusIndex.toNat ""
      (.ReflectingState, { ctx with Energy := ctx.Energy - 15, Clarity := newClarity },
        [entityID ++ " introspected on \x27" ++ focusedThought ++ "\x27. Clarity now " ++
          fmtQ newClarity ++ "."])
    else
      (.ReflectingState, ctx, [entityID ++ " failed to introspect (low energy)."])
  else if command = "unfocus" then
    if ctx.CurrentFocusIndex ≠ -1 then
      let focusedThought := ctx.Thoughts.getD ctx.CurrentFocusIndex.toNat ""
      (.ReflectingState, { ctx with CurrentFocusIndex := -1, Clarity := 0 },
        [entityID ++ " unfocused from \x27" ++ focusedThought ++ "\x27."])
    else
      (.ReflectingState, ctx, [entityID ++ " tried to unfocus but no thought was focused."])
  else if command = "idle" then
    (.IdleState, ctx, [entityID ++ " transitioned to Idle from Reflecting."])
  else
    (.ReflectingState, ctx, [unknownCommandEvent entityID command "Reflecting"])

/-- `ActingState.HandleInput` from states.go (the source file contains no
`evolve` branch; see `ActingHandleInputSpec` below for the spec-modelled one). -/
def ActingState.HandleInput (entityID : String) (ctx : MindContext) (command : String) :
    State × MindContext × List String :=
  if ctx.Energy < 20 ∧ command = "express" then
    (.ActingState, ctx, [entityID ++ " has low energy for expressing thoughts."])
  else if command = "express" then
    if ctx.CurrentFocusIndex = -1 then
      (.ActingState, ctx, [entityID ++ " tried to express without focus."])
    else
      let focusedThought := ctx.Thoughts.getD ctx.CurrentFocusIndex.toNat ""
      if ctx.Clarity < ctx.ExpressionThreshold then
        (.ActingState, ctx,
          [entityID ++ " FAILED TO EXPRESS: \x27" ++ focusedThought ++ "\x27. Clarity " ++
            fmtQ ctx.Clarity ++ " is below threshold " ++ fmtQ ctx.ExpressionThreshold ++ "."])
      else if ctx.Energy ≥ 20 then
        (.ActingState,
          { ctx with Energy := ctx.Energy - 20, CurrentFocusIndex := -1, Clarity := 0 },
          [entityID ++ " SUCCESSFULLY EXPRESSED: \x27" ++ focusedThought ++ "\x27!"])
      else
        (.ActingState, ctx,
          [entityID ++ " failed to express \x27" ++ focusedThought ++ "\x27 (low energy)."])
  else if command = "idle" then
    (.IdleState, ctx, [entityID ++ " transitioned to Idle from Acting."])
  else
    (.ActingState, ctx, [unknownCommandEvent entityID command "Acting"])

/-- Modelled from the spec: the `evolve <param> <direction>` branch of the
Acting mode.  This branch is missing from the provided source (the
`ActingState.HandleInput` in states.go has no `evolve` case) although its
tests (states_test.go) and its caller (`selectAIAction` in main.go) are
present; it is therefore reconstructed from spec section 4.2, with the
ordered fail-fast checks and the event wording fixed by states_test.go. -/
def evolveCommand (entityID : String) (ctx : MindContext) (args : List String) :
    State × MindContext × List String :=
  match args with
  | param :: direction :: _ =>
    if param ≠ "max_energy" ∧ param ≠ "threshold" then
      (.ActingState, ctx,
        [entityID ++ " Unknown parameter \x27" ++ param ++ "\x27 for evolution."])
    else if ctx.CurrentFocusIndex = -1 then
      (.ActingState, ctx, [entityID ++ " cannot evolve without a deeply focused thought."])
    else if ctx.Clarity < 19/20 then
      (.ActingState, ctx, [entityID ++ " clarity is not high enough to evolve."])
    else if ctx.Energy < 50 then
      (.ActingState, ctx, [entityID ++ " Not enough energy to evolve."])
    else if param = "max_energy" then
      if direction = "increase" then
        (.ActingState,
          { ctx with Energy := ctx.Energy - 50,
                     Thoughts := ctx.Thoughts.eraseIdx ctx.CurrentFocusIndex.toNat,
                     CurrentFocusIndex := -1, Clarity := 0,
                     MaxEnergy := ctx.MaxEnergy + 10 },
          [entityID ++ " " ++ "EVOLVED" ++
            (": MaxEnergy increased to " ++ toString (ctx.MaxEnergy + 10) ++ ".")])
      else
        (.ActingState, ctx,
          [entityID ++ " Invalid direction \x27" ++ direction ++ "\x27 for max_energy."])
    else
      if direction = "increase" then
        let newThreshold :=
          if ctx.ExpressionThreshold + 1/20 > 19/20 then 19/20 else ctx.ExpressionThreshold + 1/20
        (.ActingState,
          { ctx with Energy := ctx.Energy - 50,
                     Thoughts := ctx.Thoughts.eraseIdx ctx.CurrentFocusIndex.toNat,
                     CurrentFocusIndex := -1, Clarity := 0,
                     ExpressionThreshold := newThreshold },
          [entityID ++ " " ++ "EVOLVED" ++
            (": ExpressionThreshold increased to " ++ fmtQ newThreshold ++ ".")])
      else if direction = "decrease" then
        let newThreshold :=
          if ctx.ExpressionThreshold - 1/20 < 1/10 then 1/10 else ctx.ExpressionThreshold - 1/20
        (.ActingState,
          { ctx with Energy := ctx.Energy - 50,
                     Thoughts := ctx.Thoughts.eraseIdx ctx.CurrentFocusIndex.toNat,
                     CurrentFocusIndex := -1, Clarity := 0,
                     ExpressionThreshold := newThreshold },
          [entityID ++ " " ++ "EVOLVED" ++
            (": ExpressionThreshold decreased to " ++ fmtQ newThreshold ++ ".")])
      else
        (.ActingState, ctx,
          [entityID ++ " Invalid direction \x27" ++ direction ++ "\x27 for threshold."])
  | _ =>
    (.ActingState, ctx, [entityID ++ " Usage: evolve <parameter> <direction>"])

/-- Modelled from the spec: the full Acting handler as specified (section 4.1
table plus 4.2), i.e. the source `ActingState.HandleInput` extended with the
missing `evolve` branch. -/
def ActingHandleInputSpec (entityID : String) (ctx : MindContext) (command : String)
    (args : List String) : State × MindContext × List String :=
  if command = "evolve" then evolveCommand entityID ctx args
  else ActingState.HandleInput entityID ctx command

/-- The values drawn from the global random source during one dispatch. -/
structure RandInput where
  genIdx : Nat
  jitter : ℚ
deriving Repr, DecidableEq

/-- Dispatch of a tokenized command to the current state, as performed by the
main loop (`currentEntity.CurrentFSMState.HandleInput`), with `parts`
already split into `command = parts[0]` and `args = parts[1:]`. -/
def dispatch (s : State) (entityID : String) (ctx : MindContext) (command : String)
    (args : List String) (r : RandInput) : State × MindContext × List String :=
  match s with
  | .IdleState => IdleState.HandleInput entityID ctx command
  | .ThinkingState => ThinkingState.HandleInput entityID ctx command args r.genIdx
  | .ReflectingState => ReflectingState.HandleInput entityID ctx command r.jitter
  | .ActingState => ActingState.HandleInput entityID ctx command

/-- Dispatch on the raw `parts` list.  Every Go handler reads `parts[0]`
unconditionally, so an empty list would be an out-of-bounds access: this is
modelled by `none`. -/
def HandleInputDispatch (s : State) (entityID : String) (ctx : MindContext)
    (parts : List String) (r : RandInput) : Option (State × MindContext × List String) :=
  match parts with
  | [] => none
  | command :: args => some (dispatch s entityID ctx command args r)

/-- The manual-input step of the main loop (main.go): the line is split into
whitespace-separated fields (`strings.Fields`) and an empty `parts` list is
skipped (`continue`) before any handler runs. -/
def mainPlayerStep (s : State) (entityID : String) (ctx : MindContext) (input : String)
    (r : RandInput) : State × MindContext × List String :=
  let parts := fields input
  match HandleInputDispatch s entityID ctx parts r with
  | none => (s, ctx, [])
  | some out => out

/-- `getStateByName` from main.go (the default branch prints a load warning to
the console and falls back to `IdleState`). -/
def getStateByName (name : String) : State :=
  if name = "Idle" then .IdleState
  else if name = "Thinking" then .ThinkingState
  else if name = "Reflecting" then .ReflectingState
  else if name = "Acting" then .ActingState
  else .IdleState

/-- The MindState invariants of spec section 3. -/
def MindInvariant (ctx : MindContext) : Prop :=
  0 ≤ ctx.Energy ∧ ctx.Energy ≤ ctx.MaxEnergy ∧
  0 ≤ ctx.Clarity ∧ ctx.Clarity ≤ 1 ∧
  (ctx.CurrentFocusIndex = -1 ∨
    (0 ≤ ctx.CurrentFocusIndex ∧ ctx.CurrentFocusIndex.toNat < ctx.Thoughts.length)) ∧
  (ctx.CurrentFocusIndex ≠ -1 ∨ ctx.Clarity = 0)

/-- The set of commands each mode recognizes (the non-`default` switch cases
of its handler). -/
def recognizedCommands : State → List String
  | .IdleState => ["think", "reflect", "act", "recharge"]
  | .ThinkingState => ["generate", "focus", "idle"]
  | .ReflectingState => ["introspect", "unfocus", "idle"]
  | .ActingState => ["express", "idle"]

/-- The commands carrying an energy cost in the source handlers, with their
costs. -/
def costedCommands : List (State × String × Int) :=
  [(.IdleState, "think", 5), (.IdleState, "reflect", 5), (.IdleState, "act", 5),
   (.ThinkingState, "generate", 10), (.ThinkingState, "focus", 5),
   (.ReflectingState, "introspect", 15), (.ActingState, "express", 20)]

/-- Iterated `introspect` dispatches in Reflecting mode, one per jitter value
in the list. -/
def introspectIter (entityID : String) (ctx : MindContext) : List ℚ → MindContext
  | [] => ctx
  | j :: js =>
    introspectIter entityID (ReflectingState.HandleInput entityID ctx "introspect" j).2.1 js

/-- Update applied to clarity by one successful `introspect` (the `+=` followed
by the `> 1.0` clamp in the source). -/
def clarityStep (c j : ℚ) : ℚ := min 1 (c + (3/20 + j * (1/10)))

/-- Concrete context for the C1 witness: one focused thought, clarity `0.95`,
energy `70`, maxEnergy `100` (the worked example of the spec). -/
def ctxEvolveW : MindContext :=
  { Thoughts := ["a profound thought"], CurrentFocusIndex := 0, Clarity := 19/20,
    Energy := 70, MaxEnergy := 100, ExpressionThreshold := 7/10 }

/-- Concrete context for the C2 witness: two thoughts, no focus, energy `70`. -/
def ctxFocusW : MindContext :=
  { Thoughts := ["t0", "t1"], CurrentFocusIndex := -1, Clarity := 0,
    Energy := 70, MaxEnergy := 100, ExpressionThreshold := 7/10 }

/-- Concrete context for the C2 counterexample: energy `5` (at least the focus
cost of 5, but below the Thinking-mode gate of 10) and a valid index `0`. -/
def ctxGateC2 : MindContext :=
  { Thoughts := ["t0"], CurrentFocusIndex := -1, Clarity := 0, Energy := 5,
    MaxEnergy := 100, ExpressionThreshold := 7/10 }

/-- Concrete context for the C3 counterexample: energy `5`, i.e. below the
Thinking-mode gate of 10. -/
def ctxGateC3 : MindContext :=
  { Thoughts := ["t0"], CurrentFocusIndex := -1, Clarity := 0, Energy := 5,
    MaxEnergy := 100, ExpressionThreshold := 7/10 }

/-- Concrete context for the C4 witness: focused thought, clarity `0.8` above
the threshold `0.7`, energy `70`. -/
def ctxExpressW : MindContext :=
  { Thoughts := ["a brilliant idea"], CurrentFocusIndex := 0, Clarity := 4/5,
    Energy := 70, MaxEnergy := 100, ExpressionThreshold := 7/10 }

/-- Concrete context for the C5 witness: focused thought, clarity `0.5`,
enough energy for seven introspections. -/
def ctxReflectW : MindContext :=
  { Thoughts := ["t"], CurrentFocusIndex := 0, Clarity := 1/2,
    Energy := 200, MaxEnergy := 300, ExpressionThreshold := 7/10 }

/-- Concrete context for the C7 witness: zero energy. -/
def ctxLowW : MindContext :=
  { Thoughts := [], CurrentFocusIndex := -1, Clarity := 0,
    Energy := 0, MaxEnergy := 100, ExpressionThreshold := 7/10 }

/-- Concrete context for the C10 witness: satisfies the invariants with a
focused thought. -/
def ctxReadW : MindContext :=
  { Thoughts := ["t"], CurrentFocusIndex := 0, Clarity := 1/2,
    Energy := 10, MaxEnergy := 100, ExpressionThreshold := 7/10 }

/-- Seven zero draws of the jitter source, for the C5 witness. -/
def sevenJitters : List ℚ := [0, 0, 0, 0, 0, 0, 0]

/-- Helper: `IdleState.HandleInput` preserves the MindState invariants. -/
theorem invariant_idle (entityID command : String) {ctx : MindContext}
    (h : MindInvariant ctx) :
    MindInvariant (IdleState.HandleInput entityID ctx command).2.1 := by
  unfold MindInvariant at h ⊢
  obtain ⟨h1, h2, h3, h4, h5, h6⟩ := h
  unfold IdleState.HandleInput
  dsimp only
  repeat' split
  all_goals dsimp only
  all_goals exact ⟨by omega, by omega, h3, h4, h5, h6⟩

/-- Helper: `ThinkingState.HandleInput` preserves the MindState invariants. -/
theorem invariant_thinking (entityID command : String) (args : List String) (g : Nat)
    {ctx : MindContext} (h : MindInvariant ctx) :
    MindInvariant (ThinkingState.HandleInput entityID ctx command args g).2.1 := by
  unfold MindInvariant at h ⊢
  obtain ⟨h1, h2, h3, h4, h5, h6⟩ := h
  unfold ThinkingState.HandleInput
  dsimp only
  repeat' split
  all_goals dsimp only
  all_goals try exact ⟨h1, h2, h3, h4, h5, h6⟩
  · refine ⟨by omega, by omega, h3, h4, ?_, h6⟩
    rcases h5 with h | ⟨ha, hb⟩
    · exact Or.inl h
    · refine Or.inr ⟨ha, ?_⟩
      simp only [List.length_append, List.length_cons, List.length_nil]
      omega
  · refine ⟨by omega, by omega, by norm_num, by norm_num, Or.inr ⟨by omega, by omega⟩,
      Or.inl (by omega)⟩

/-- Helper: `ReflectingState.HandleInput` preserves the MindState invariants
whenever the jitter drawn from `rand.Float64()` is nonnegative. -/
theorem invariant_reflecting (entityID command : String) (jitter : ℚ)
    {ctx : MindContext} (h : MindInvariant ctx) (hj : 0 ≤ jitter) :
    MindInvariant (ReflectingState.HandleInput entityID ctx command jitter).2.1 := by
  unfold MindInvariant at h ⊢
  obtain ⟨h1, h2, h3, h4, h5, h6⟩ := h
  have hj10 : 0 ≤ jitter * (1/10) := mul_nonneg hj (by norm_num)
  unfold ReflectingState.HandleInput
  dsimp only
  repeat' split
  all_goals dsimp only
  all_goals try exact ⟨h1, h2, h3, h4, h5, h6⟩
  · exact ⟨by omega, by omega, by norm_num, le_refl 1, h5, Or.inl (by omega)⟩
  · refine ⟨by omega, by omega, by linarith, by linarith, h5, Or.inl (by omega)⟩
  · exact ⟨h1, h2, le_refl 0, by norm_num, Or.inl rfl, Or.inr rfl⟩

/-- Helper: `ActingState.HandleInput` preserves the MindState invariants. -/
theorem invariant_acting (entityID command : String) {ctx : MindContext}
    (h : MindInvariant ctx) :
    MindInvariant (ActingState.HandleInput entityID ctx command).2.1 := by
  unfold MindInvariant at h ⊢
  obtain ⟨h1, h2, h3, h4, h5, h6⟩ := h
  unfold ActingState.HandleInput
  dsimp only
  repeat' split
  all_goals dsimp only
  all_goals try exact ⟨h1, h2, h3, h4, h5, h6⟩
  exact ⟨by omega, by omega, le_refl 0, by norm_num, Or.inl rfl, Or.inr rfl⟩

/-- Helper: one successful `introspect` dispatch written in closed form. -/
theorem introspect_step (entityID : String) {ctx : MindContext} (j : ℚ)
    (hfoc : ctx.CurrentFocusIndex ≠ -1) (hE : 15 ≤ ctx.Energy) :
    ReflectingState.HandleInput entityID ctx "introspect" j =
      (.ReflectingState,
        { ctx with Energy := ctx.Energy - 15, Clarity := clarityStep ctx.Clarity j },
        [entityID ++ " introspected on \x27" ++ ctx.Thoughts.getD ctx.CurrentFocusIndex.toNat "" ++
          "\x27. Clarity now " ++ fmtQ (clarityStep ctx.Clarity j) ++ "."]) := by
  have hgate : ¬ ctx.Energy < 15 := by omega
  have hE' : ctx.Energy ≥ 15 := hE
  have hmin : (if ctx.Clarity + (3/20 + j * (1/10)) > 1 then 1
      else ctx.Clarity + (3/20 + j * (1/10))) = clarityStep ctx.Clarity j := by
    unfold clarityStep
    rcases le_or_lt (ctx.Clarity + (3/20 + j * (1/10))) 1 with hle | hgt
    · rw [if_neg (not_lt.mpr hle), min_eq_right hle]
    · rw [if_pos hgt, min_eq_left (le_of_lt hgt)]
  simp only [ReflectingState.HandleInput, hgate, hfoc, hE', hmin, false_and, if_false,
    if_neg, ite_true, ite_false, ne_eq, not_false_iff, ge_iff_le, le_refl]

/-- Helper: iterated `introspect` dispatches fold `clarityStep` over the list
of jitter draws and consume 15 energy per call. -/
theorem introspect_iter_eq (entityID : String) (js : List ℚ) : ∀ (ctx : MindContext),
    ctx.CurrentFocusIndex ≠ -1 → 15 * (js.length : Int) ≤ ctx.Energy →
    introspectIter entityID ctx js =
      { ctx with Energy := ctx.Energy - 15 * js.length,
                 Clarity := js.foldl clarityStep ctx.Clarity } := by
  induction js with
  | nil =>
    intro ctx hfoc hE
    cases ctx
    simp [introspectIter]
  | cons j js ih =>
    intro ctx hfoc hE
    have hE1 : 15 ≤ ctx.Energy := by
      simp only [List.length_cons] at hE
      push_cast at hE
      omega
    have h2 : 15 * (js.length : Int) ≤ ctx.Energy - 15 := by
      simp only [List.length_cons] at hE
      push_cast at hE
      omega
    rw [introspectIter, introspect_step entityID j hfoc hE1]
    dsimp only
    rw [ih { ctx with Energy := ctx.Energy - 15, Clarity := clarityStep ctx.Clarity j } hfoc h2]
    cases ctx
    simp only [List.foldl_cons, List.length_cons, MindContext.mk.injEq, and_true, true_and]
    push_cast
    ring

/-- Helper: folding `clarityStep` never leaves the interval below 1 once the
accumulator is at most 1. -/
theorem foldl_clarityStep_le_one : ∀ (js : List ℚ) (c : ℚ), c ≤ 1 →
    js.foldl clarityStep c ≤ 1
  | [], c, h => h
  | j :: js, c, _ => by
    rw [List.foldl_cons]
    exact foldl_clarityStep_le_one js (clarityStep c j) (min_le_left _ _)

/-- Helper: each fold step gains at least `3/20` of clarity until the cap. -/
theorem foldl_clarityStep_lower : ∀ (js : List ℚ) (c : ℚ), 0 ≤ c → (∀ j ∈ js, 0 ≤ j) →
    min 1 (c + (3/20) * js.length) ≤ js.foldl clarityStep c
  | [], c, hc, _ => by
    simp only [List.foldl_nil, List.length_nil, Nat.cast_zero, mul_zero, add_zero]
    exact min_le_right _ _
  | j :: js, c, hc, hjs => by
    have hj : 0 ≤ j := hjs j (List.mem_cons_self _ _)
    have hjs' : ∀ x ∈ js, 0 ≤ x := fun x hx => hjs x (List.mem_cons_of_mem _ hx)
    have hj10 : 0 ≤ j * (1/10) := mul_nonneg hj (by norm_num)
    have hk : 0 ≤ (3/20 : ℚ) * js.length :=
      mul_nonneg (by norm_num) (Nat.cast_nonneg _)
    have hc' : 0 ≤ clarityStep c j := le_min (by norm_num) (by linarith)
    have ih := foldl_clarityStep_lower js (clarityStep c j) hc' hjs'
    rw [List.foldl_cons]
    refine le_trans ?_ ih
    rcases le_or_lt (c + 3/20) 1 with h1 | h1
    · have hstep : c + 3/20 ≤ clarityStep c j := le_min h1 (by linarith)
      refine min_le_min (le_refl 1) ?_
      simp only [List.length_cons]
      push_cast
      nlinarith
    · have hstep : clarityStep c j = 1 := by
        unfold clarityStep
        exact min_eq_left (by linarith)
      rw [hstep]
      have hone : min (1:ℚ) (1 + (3/20) * js.length) = 1 := min_eq_left (by linarith)
      rw [hone]
      exact min_le_left _ _

/-- Helper: seven or more fold steps starting from a nonnegative accumulator
reach exactly 1. -/
theorem foldl_clarityStep_cap (js : List ℚ) (c : ℚ) (hc : 0 ≤ c)
    (hjs : ∀ j ∈ js, 0 ≤ j) (hlen : 7 ≤ js.length) : js.foldl clarityStep c = 1 := by
  have hub : js.foldl clarityStep c ≤ 1 := by
    cases js with
    | nil => simp at hlen
    | cons j js =>
      rw [List.foldl_cons]
      exact foldl_clarityStep_le_one js _ (min_le_left _ _)
  have hlb := foldl_clarityStep_lower js c hc hjs
  have hcast : (7:ℚ) ≤ (js.length : ℚ) := by exact_mod_cast hlen
  have h1 : (1:ℚ) ≤ c + (3/20) * js.length := by nlinarith
  rw [min_eq_left h1] at hlb
  linarith

/-- Claim C1: in Acting mode, with a focused thought, clarity at least 0.95
and energy at least 50, dispatching `evolve max_energy increase` subtracts 50
energy, increases maxEnergy by 10, removes the focused thought, clears focus
and clarity, stays in Acting, and emits an event containing "EVOLVED"
(handler modelled from the spec, the evolve branch being absent from the
provided source). -/
theorem evolve_max_energy_increase (entityID : String) (ctx : MindContext)
    (hfoc : 0 ≤ ctx.CurrentFocusIndex)
    (hidx : ctx.CurrentFocusIndex.toNat < ctx.Thoughts.length)
    (hclar : 19/20 ≤ ctx.Clarity) (hE : 50 ≤ ctx.Energy) :
    ActingHandleInputSpec entityID ctx "evolve" ["max_energy", "increase"] =
      (.ActingState,
        { ctx with Energy := ctx.Energy - 50,
                   Thoughts := ctx.Thoughts.eraseIdx ctx.CurrentFocusIndex.toNat,
                   CurrentFocusIndex := -1, Clarity := 0,
                   MaxEnergy := ctx.MaxEnergy + 10 },
        [entityID ++ " " ++ "EVOLVED" ++
          (": MaxEnergy increased to " ++ toString (ctx.MaxEnergy + 10) ++ ".")]) ∧
    (ctx.Thoughts.eraseIdx ctx.CurrentFocusIndex.toNat).length = ctx.Thoughts.length - 1 ∧
    (∃ a b : String,
      entityID ++ " " ++ "EVOLVED" ++
          (": MaxEnergy increased to " ++ toString (ctx.MaxEnergy + 10) ++ ".") =
        a ++ "EVOLVED" ++ b) := by
  have h1 : ¬ ctx.CurrentFocusIndex = -1 := by omega
  have h2 : ¬ ctx.Clarity < 19/20 := not_lt.mpr hclar
  have h3 : ¬ ctx.Energy < 50 := by omega
  refine ⟨?_, ?_,
    ⟨entityID ++ " ", ": MaxEnergy increased to " ++ toString (ctx.MaxEnergy + 10) ++ ".", rfl⟩⟩
  · simp [ActingHandleInputSpec, evolveCommand, h1, h2, h3]
  · rw [List.length_eraseIdx]
    simp [hidx]

/-- Witness for C1 at the worked example of the spec: energy 70 becomes 20,
maxEnergy 100 becomes 110, the one thought is consumed. -/
theorem evolve_max_energy_increase_witness :
    ActingHandleInputSpec "E" ctxEvolveW "evolve" ["max_energy", "increase"] =
      (.ActingState,
        { ctxEvolveW with Energy := 20, Thoughts := [], CurrentFocusIndex := -1,
                          Clarity := 0, MaxEnergy := 110 },
        ["E EVOLVED: MaxEnergy increased to 110."]) := by
  have h := (evolve_max_energy_increase "E" ctxEvolveW (by decide) (by decide)
    (by norm_num [ctxEvolveW]) (by decide)).1
  rw [h]
  rfl

/-- Claim C2 (amended): in Thinking mode the handler first requires energy at
least 10 for every command other than `idle`; under that gate, `focus` with a
valid index subtracts 5 energy, sets focusIndex to the index, sets clarity to
exactly 0.1 and stays in Thinking, while an out-of-range or non-numeric index
leaves the context unchanged and emits an error event. -/
theorem thinking_focus (entityID : String) (ctx : MindContext) (a : String)
    (rest : List String) (g : Nat) (hE : 10 ≤ ctx.Energy) :
    (∀ i : Int, atoi a = some i → 0 ≤ i → i < (ctx.Thoughts.length : Int) →
      ThinkingState.HandleInput entityID ctx "focus" (a :: rest) g =
        (.ThinkingState,
          { ctx with Energy := ctx.Energy - 5, CurrentFocusIndex := i, Clarity := 1/10 },
          [entityID ++ " focused on thought [" ++ toString i ++ "]: \x27" ++
            ctx.Thoughts.getD i.toNat "" ++ "\x27. Clarity reset to " ++ fmtQ (1/10) ++ "."])) ∧
    (atoi a = none →
      ThinkingState.HandleInput entityID ctx "focus" (a :: rest) g =
        (.ThinkingState, ctx,
          [entityID ++ " tried to focus on invalid index \x27" ++ a ++ "\x27."])) ∧
    (∀ i : Int, atoi a = some i → (i < 0 ∨ (ctx.Thoughts.length : Int) ≤ i) →
      ThinkingState.HandleInput entityID ctx "focus" (a :: rest) g =
        (.ThinkingState, ctx,
          [entityID ++ " tried to focus on invalid index \x27" ++ a ++ "\x27."])) := by
  have hgate : ¬ ctx.Energy < 10 := by omega
  refine ⟨?_, ?_, ?_⟩
  · intro i hp h0 hlt
    have hrange : ¬ (i < 0 ∨ i ≥ (ctx.Thoughts.length : Int)) := by omega
    have hE5 : ctx.Energy ≥ 5 := by omega
    simp [ThinkingState.HandleInput, hgate, hp, hrange, hE5]
  · intro hp
    simp [ThinkingState.HandleInput, hgate, hp]
  · intro i hp hout
    have hrange : i < 0 ∨ i ≥ (ctx.Thoughts.length : Int) := by omega
    simp [ThinkingState.HandleInput, hgate, hp, hrange]

/-- Witness for C2 (amended): focusing index 1 of two thoughts at energy 70. -/
theorem thinking_focus_witness :
    ThinkingState.HandleInput "E" ctxFocusW "focus" ["1"] 0 =
      (.ThinkingState,
        { ctxFocusW with Energy := 65, CurrentFocusIndex := 1, Clarity := 1/10 },
        ["E focused on thought [1]: \x27t1\x27. Clarity reset to " ++ fmtQ (1/10) ++ "."]) := by
  have h := (thinking_focus "E" ctxFocusW "1" [] 0 (by decide)).1 1
    (by decide) (by decide) (by decide)
  rw [h]
  rfl

/-- Counterexample to C2 as stated: with energy 5 (which satisfies the
claimed precondition energy at least 5) and the valid index 0, the dispatch
is a no-op because of the Thinking-mode gate requiring energy at least 10:
focusIndex stays none, clarity does not become 0.1, energy is not reduced. -/
theorem thinking_focus_low_energy_cex :
    5 ≤ ctxGateC2.Energy ∧ 0 < ctxGateC2.Thoughts.length ∧
    (ThinkingState.HandleInput "E" ctxGateC2 "focus" ["0"] 0).2.1 = ctxGateC2 ∧
    (ThinkingState.HandleInput "E" ctxGateC2 "focus" ["0"] 0).2.1.Clarity ≠ 1/10 ∧
    (ThinkingState.HandleInput "E" ctxGateC2 "focus" ["0"] 0).2.1.CurrentFocusIndex = -1 ∧
    (ThinkingState.HandleInput "E" ctxGateC2 "focus" ["0"] 0).2.1.Energy = ctxGateC2.Energy := by
  refine ⟨by decide, by decide, rfl, ?_, rfl, rfl⟩
  show (0 : ℚ) ≠ 1/10
  norm_num

/-- Claim C3 (amended): a command outside the recognized set of the current
mode never changes the mode or any MindState field and emits exactly one
event; the event is the unknown-command event, except in Thinking mode with
energy below 10 where the low-energy diagnostic is emitted instead; the
dispatch is idempotent. -/
theorem unknown_command_noop (s : State) (entityID : String) (ctx : MindContext)
    (command : String) (args : List String) (r : RandInput)
    (h : command ∉ recognizedCommands s) :
    dispatch s entityID ctx command args r =
      (s, ctx,
        [if s = .ThinkingState ∧ ctx.Energy < 10 then
           entityID ++ " has low energy for thinking actions."
         else unknownCommandEvent entityID command s.GetName]) ∧
    dispatch s entityID
        ((dispatch s entityID ctx command args r).2.1) command args r =
      dispatch s entityID ctx command args r := by
  have key : dispatch s entityID ctx command args r =
      (s, ctx,
        [if s = .ThinkingState ∧ ctx.Energy < 10 then
           entityID ++ " has low energy for thinking actions."
         else unknownCommandEvent entityID command s.GetName]) := by
    cases s with
    | IdleState =>
      simp [recognizedCommands] at h
      push_neg at h
      obtain ⟨h1, h2, h3, h4⟩ := h
      simp [dispatch, IdleState.HandleInput, State.GetName, h1, h2, h3, h4]
    | ThinkingState =>
      simp [recognizedCommands] at h
      push_neg at h
      obtain ⟨h1, h2, h3⟩ := h
      by_cases hE : ctx.Energy < 10
      · simp [dispatch, ThinkingState.HandleInput, State.GetName, h1, h2, h3, hE]
      · simp [dispatch, ThinkingState.HandleInput, State.GetName, h1, h2, h3, hE]
    | ReflectingState =>
      simp [recognizedCommands] at h
      push_neg at h
      obtain ⟨h1, h2, h3⟩ := h
      simp [dispatch, ReflectingState.HandleInput, State.GetName, h1, h2, h3]
    | ActingState =>
      simp [recognizedCommands] at h
      push_neg at h
      obtain ⟨h1, h2⟩ := h
      simp [dispatch, ActingState.HandleInput, State.GetName, h1, h2]
  refine ⟨key, ?_⟩
  rw [key]
  exact key

/-- Witness for C3 (amended): the unrecognized command `mystery` in
Reflecting mode is a pure no-op with the unknown-command event. -/
theorem unknown_command_noop_witness :
    dispatch .ReflectingState "E" NewMindContext "mystery" [] ⟨0, 0⟩ =
      (.ReflectingState, NewMindContext, [unknownCommandEvent "E" "mystery" "Reflecting"]) := by
  have h := (unknown_command_noop .ReflectingState "E" NewMindContext "mystery" [] ⟨0, 0⟩
    (by decide)).1
  rw [h]
  rfl

/-- Counterexample to C3 as stated: in Thinking mode with energy 5, the
unrecognized command `mystery` emits one event, but that event is the
low-energy diagnostic, which does not contain the words "unknown command". -/
theorem unknown_command_event_cex :
    "mystery" ∉ recognizedCommands .ThinkingState ∧
    (dispatch .ThinkingState "E" ctxGateC3 "mystery" [] ⟨0, 0⟩).2.2.length = 1 ∧
    containsStr ((dispatch .ThinkingState "E" ctxGateC3 "mystery" [] ⟨0, 0⟩).2.2.headD "")
      "unknown command" = false := by
  refine ⟨by decide, rfl, by decide⟩

/-- Claim C4: in Acting mode with a focused thought, `express` with clarity
at least the threshold and energy at least 20 subtracts 20 energy, clears
focus and clarity, leaves the thoughts list unchanged and stays in Acting;
with clarity below the threshold the dispatch changes nothing and emits one
failure event; in every case energy is charged only on success and the
thoughts list is never modified. -/
theorem acting_express (entityID : String) (ctx : MindContext)
    (hfoc : ctx.CurrentFocusIndex ≠ -1) :
    (ctx.ExpressionThreshold ≤ ctx.Clarity → 20 ≤ ctx.Energy →
      ActingState.HandleInput entityID ctx "express" =
        (.ActingState,
          { ctx with Energy := ctx.Energy - 20, CurrentFocusIndex := -1, Clarity := 0 },
          [entityID ++ " SUCCESSFULLY EXPRESSED: \x27" ++
            ctx.Thoughts.getD ctx.CurrentFocusIndex.toNat "" ++ "\x27!"])) ∧
    (ctx.Clarity < ctx.ExpressionThreshold →
      (ActingState.HandleInput entityID ctx "express").1 = .ActingState ∧
      (ActingState.HandleInput entityID ctx "express").2.1 = ctx ∧
      (ActingState.HandleInput entityID ctx "express").2.2.length = 1) ∧
    ((ActingState.HandleInput entityID ctx "express").2.1.Energy = ctx.Energy ∨
      ((ActingState.HandleInput entityID ctx "express").2.1.Energy = ctx.Energy - 20 ∧
        ctx.ExpressionThreshold ≤ ctx.Clarity ∧ 20 ≤ ctx.Energy)) ∧
    (ActingState.HandleInput entityID ctx "express").2.1.Thoughts = ctx.Thoughts := by
  refine ⟨?_, ?_, ?_, ?_⟩
  · intro hcl hE
    have h1 : ¬ ctx.Energy < 20 := by omega
    have h2 : ¬ ctx.Clarity < ctx.ExpressionThreshold := not_lt.mpr hcl
    simp [ActingState.HandleInput, h1, h2, hfoc, hE]
  · intro hcl
    by_cases hE : ctx.Energy < 20
    · simp [ActingState.HandleInput, hE]
    · simp [ActingState.HandleInput, hE, hfoc, hcl]
  · by_cases hE : ctx.Energy < 20
    · left; simp [ActingState.HandleInput, hE]
    · by_cases hcl : ctx.Clarity < ctx.ExpressionThreshold
      · left; simp [ActingState.HandleInput, hE, hfoc, hcl]
      · right
        have hE' : ctx.Energy ≥ 20 := by omega
        have hcl' := not_lt.mp hcl
        simp [ActingState.HandleInput, hE, hfoc, hcl, hE', hcl']
  · by_cases hE : ctx.Energy < 20
    · simp [ActingState.HandleInput, hE]
    · by_cases hcl : ctx.Clarity < ctx.ExpressionThreshold
      · simp [ActingState.HandleInput, hE, hfoc, hcl]
      · have hE' : ctx.Energy ≥ 20 := by omega
        simp [ActingState.HandleInput, hE, hfoc, hcl, hE']

/-- Witness for C4: clarity 0.8 above threshold 0.7 at energy 70 expresses
successfully, leaving the thought in place. -/
theorem acting_express_witness :
    ActingState.HandleInput "E" ctxExpressW "express" =
      (.ActingState, { ctxExpressW with Energy := 50, CurrentFocusIndex := -1, Clarity := 0 },
        ["E SUCCESSFULLY EXPRESSED: \x27a brilliant idea\x27!"]) := by
  have h := (acting_express "E" ctxExpressW (by decide)).1
    (by norm_num [ctxExpressW]) (by decide)
  rw [h]
  rfl

/-- Claim C5: in Reflecting mode with a focused thought and energy at least
15, `introspect` subtracts 15 energy and sets clarity to
`min 1 (clarity + 0.15 + u)` where `u = jitter * 0.1` lies in `[0, 0.1)` for
any jitter in `[0, 1)`; iterating introspection with sufficient energy never
drives clarity above 1 and, after at least seven calls, caps it at exactly 1. -/
theorem introspect_clarity_cap (entityID : String) (ctx : MindContext) (js : List ℚ)
    (hfoc : ctx.CurrentFocusIndex ≠ -1) (hc : 0 ≤ ctx.Clarity)
    (hE : 15 * (js.length : Int) ≤ ctx.Energy)
    (hjs : ∀ j ∈ js, 0 ≤ j ∧ j < 1) :
    (∀ j : ℚ, 0 ≤ j → j < 1 → 15 ≤ ctx.Energy →
      (ReflectingState.HandleInput entityID ctx "introspect" j).1 = .ReflectingState ∧
      (ReflectingState.HandleInput entityID ctx "introspect" j).2.1.Energy = ctx.Energy - 15 ∧
      (ReflectingState.HandleInput entityID ctx "introspect" j).2.1.Clarity =
        min 1 (ctx.Clarity + (3/20 + j * (1/10))) ∧
      0 ≤ j * (1/10) ∧ j * (1/10) < 1/10) ∧
    (js ≠ [] → (introspectIter entityID ctx js).Clarity ≤ 1) ∧
    (7 ≤ js.length → (introspectIter entityID ctx js).Clarity = 1) := by
  refine ⟨?_, ?_, ?_⟩
  · intro j hj0 hj1 hE15
    rw [introspect_step entityID j hfoc hE15]
    exact ⟨rfl, rfl, rfl, mul_nonneg hj0 (by norm_num), by nlinarith⟩
  · intro hne
    rw [introspect_iter_eq entityID js ctx hfoc hE]
    show js.foldl clarityStep ctx.Clarity ≤ 1
    cases js with
    | nil => exact absurd rfl hne
    | cons j js =>
      rw [List.foldl_cons]
      exact foldl_clarityStep_le_one js _ (min_le_left _ _)
  · intro h7
    rw [introspect_iter_eq entityID js ctx hfoc hE]
    show js.foldl clarityStep ctx.Clarity = 1
    exact foldl_clarityStep_cap js _ hc (fun j hj => (hjs j hj).1) h7

/-- Witness for C5: starting from clarity 0.5 with energy 200, seven
introspections with zero jitter reach clarity exactly 1. -/
theorem introspect_clarity_cap_witness :
    (introspectIter "E" ctxReflectW sevenJitters).Clarity = 1 := by
  have h := (introspect_clarity_cap "E" ctxReflectW sevenJitters (by decide)
    (by norm_num [ctxReflectW])
    (by norm_num [sevenJitters, ctxReflectW])
    (by
      intro j hj
      simp only [sevenJitters, List.mem_cons, List.not_mem_nil, or_false, or_self] at hj
      subst hj
      norm_num)).2.2 (by norm_num [sevenJitters])
  exact h

/-- Claim C6: every command dispatch, in every mode, preserves the MindState
invariants, given that the jitter drawn from the random source is
nonnegative (as `rand.Float64()` guarantees). -/
theorem dispatch_preserves_invariant (s : State) (entityID : String) (ctx : MindContext)
    (command : String) (args : List String) (r : RandInput)
    (hinv : MindInvariant ctx) (hj : 0 ≤ r.jitter) :
    MindInvariant (dispatch s entityID ctx command args r).2.1 := by
  cases s
  · exact invariant_idle entityID command hinv
  · exact invariant_thinking entityID command args r.genIdx hinv
  · exact invariant_reflecting entityID command r.jitter hinv hj
  · exact invariant_acting entityID command hinv

/-- Witness for C6 at the initial context and the recharge command. -/
theorem dispatch_preserves_invariant_witness :
    MindInvariant (dispatch .IdleState "E" NewMindContext "recharge" [] ⟨0, 0⟩).2.1 :=
  dispatch_preserves_invariant .IdleState "E" NewMindContext "recharge" [] ⟨0, 0⟩
    (by norm_num [MindInvariant, NewMindContext]) (le_refl 0)

/-- Claim C7: for every costed command of every mode, dispatching it with
energy below its cost leaves the mode and the whole MindState unchanged and
emits exactly one diagnostic event. -/
theorem energy_gate_soft (s : State) (command : String) (c : Int) (entityID : String)
    (ctx : MindContext) (args : List String) (r : RandInput)
    (hmem : (s, command, c) ∈ costedCommands) (hE : ctx.Energy < c) :
    ∃ e : String, dispatch s entityID ctx command args r = (s, ctx, [e]) := by
  simp [costedCommands] at hmem
  rcases hmem with h | h | h | h | h | h | h <;> obtain ⟨rfl, rfl, rfl⟩ := h
  · exact ⟨entityID ++ " has not enough energy to start thinking.",
      by simp [dispatch, IdleState.HandleInput, show ¬ ctx.Energy ≥ 5 by omega]⟩
  · exact ⟨entityID ++ " has not enough energy to start reflecting.",
      by simp [dispatch, IdleState.HandleInput, show ¬ ctx.Energy ≥ 5 by omega]⟩
  · exact ⟨entityID ++ " has not enough energy to prepare to act.",
      by simp [dispatch, IdleState.HandleInput, show ¬ ctx.Energy ≥ 5 by omega]⟩
  · exact ⟨entityID ++ " has low energy for thinking actions.",
      by simp [dispatch, ThinkingState.HandleInput, show ctx.Energy < 10 by omega]⟩
  · exact ⟨entityID ++ " has low energy for thinking actions.",
      by simp [dispatch, ThinkingState.HandleInput, show ctx.Energy < 10 by omega]⟩
  · exact ⟨entityID ++ " has low energy for introspection.",
      by simp [dispatch, ReflectingState.HandleInput, show ctx.Energy < 15 by omega]⟩
  · exact ⟨entityID ++ " has low energy for expressing thoughts.",
      by simp [dispatch, ActingState.HandleInput, show ctx.Energy < 20 by omega]⟩

/-- Witness for C7: `think` at zero energy is a soft failure. -/
theorem energy_gate_soft_witness :
    ∃ e : String, dispatch .IdleState "E" ctxLowW "think" [] ⟨0, 0⟩ = (.IdleState, ctxLowW, [e]) :=
  energy_gate_soft .IdleState "think" 5 "E" ctxLowW [] ⟨0, 0⟩ (by decide) (by decide)

/-- Claim C8: every mode name round-trips through `getStateByName` to the
mode with exactly that name, and every unrecognized name fails closed to the
Idle mode (the source also prints a load warning in that branch). -/
theorem getStateByName_round_trip :
    (∀ s : State, getStateByName s.GetName = s) ∧
    (∀ name : String, name ≠ "Idle" → name ≠ "Thinking" → name ≠ "Reflecting" →
      name ≠ "Acting" → getStateByName name = .IdleState) := by
  constructor
  · intro s
    cases s <;> rfl
  · intro name h1 h2 h3 h4
    simp [getStateByName, h1, h2, h3, h4]

/-- Witness for C8: the unrecognized name `Limbo` falls back to Idle. -/
theorem getStateByName_round_trip_witness :
    getStateByName "Limbo" = State.IdleState :=
  getStateByName_round_trip.2 "Limbo" (by decide) (by decide) (by decide) (by decide)

/-- Claim C9: dispatch reads the head of the tokenized parts list, so it is
defined exactly on nonempty lists; the main loop never dispatches an empty
input line because `strings.Fields` output of length zero is skipped. -/
theorem dispatch_reads_head :
    (∀ (s : State) (entityID : String) (ctx : MindContext) (c : String) (args : List String)
        (r : RandInput), (HandleInputDispatch s entityID ctx (c :: args) r).isSome = true) ∧
    (∀ (s : State) (entityID : String) (ctx : MindContext) (r : RandInput),
      HandleInputDispatch s entityID ctx [] r = none) ∧
    (∀ (s : State) (entityID : String) (ctx : MindContext) (input : String) (r : RandInput),
      fields input = [] → mainPlayerStep s entityID ctx input r = (s, ctx, [])) := by
  refine ⟨fun _ _ _ _ _ _ => rfl, fun _ _ _ _ => rfl, ?_⟩
  intro s entityID ctx input r h
  simp [mainPlayerStep, h, HandleInputDispatch]

/-- Witness for C9: a line of blanks tokenizes to no fields and is skipped
without touching the state. -/
theorem dispatch_reads_head_witness :
    mainPlayerStep .IdleState "E" NewMindContext "   " ⟨0, 0⟩ = (.IdleState, NewMindContext, []) :=
  dispatch_reads_head.2.2 .IdleState "E" NewMindContext "   " ⟨0, 0⟩ (by decide)

/-- Claim C10: under the MindState invariants, whenever the focus guard
`CurrentFocusIndex != -1` passes, the index is nonnegative and within the
thoughts list, so the read `Thoughts[CurrentFocusIndex]` performed by
introspect, unfocus and express is in bounds. -/
theorem focused_read_in_bounds (ctx : MindContext) (hinv : MindInvariant ctx)
    (hfoc : ctx.CurrentFocusIndex ≠ -1) :
    0 ≤ ctx.CurrentFocusIndex ∧ ctx.CurrentFocusIndex.toNat < ctx.Thoughts.length ∧
    ctx.Thoughts[ctx.CurrentFocusIndex.toNat]? =
      some (ctx.Thoughts.getD ctx.CurrentFocusIndex.toNat "") := by
  obtain ⟨-, -, -, -, h5, -⟩ := hinv
  rcases h5 with h | ⟨h1, h2⟩
  · exact absurd h hfoc
  · exact ⟨h1, h2, by rw [List.getElem?_eq_getElem h2, List.getD_eq_getElem _ _ h2]⟩

/-- Witness for C10 at a concrete invariant-satisfying context with focus 0. -/
theorem focused_read_in_bounds_witness :
    0 ≤ ctxReadW.CurrentFocusIndex ∧
    ctxReadW.CurrentFocusIndex.toNat < ctxReadW.Thoughts.length ∧
    ctxReadW.Thoughts[ctxReadW.CurrentFocusIndex.toNat]? =
      some (ctxReadW.Thoughts.getD ctxReadW.CurrentFocusIndex.toNat "") :=
  focused_read_in_bounds ctxReadW (by norm_num [MindInvariant, ctxReadW]) (by decide)
